import Mathlib

/-!
Shallow embedding of `src/templates/python-advanced/widget.py`.

The script reads `sys.argv`, decides between a compact and an extended
output mode by the list-membership test `"--extended" in sys.argv`, and
prints a fixed sequence of directive-tagged lines computed from the
hard-coded sample data.  The whole body of `main` runs inside a
`try/except Exception` block; the handler prints a single error row.

We model the program as a pure function from the argument list to the
list of lines printed on standard output.  A possible Python exception
during the try block is modelled by an optional fault `(k, msg)`:
the exception with message `msg` is raised while evaluating the `k`-th
print statement, so the first `k` lines have already been printed, the
`k`-th is not, and control jumps to the `except` handler which prints
the error row.  `none` is the run in which no exception occurs (the
shipped code raises none: all its operations are total).

Placeholder tokens such as `{{WIDGET_TITLE}}` occur inside Python
f-strings, where `{{`/`}}` are escapes for literal braces, so the
script as written prints them with single braces.
-/

/-- `EXTENDED_MODE = "--extended" in sys.argv` (exact list membership). -/
def EXTENDED_MODE (argv : List String) : Bool := argv.contains "--extended"

/-- `current_value = 42`. -/
def current_value : Int := 42

/-- `history = [30, 35, 40, 42, 45, 50, 48, 42]`. -/
def history : List Int := [30, 35, 40, 42, 45, 50, 48, 42]

/-- Python `sum`. -/
def pySum (l : List Int) : Int := l.foldl (· + ·) 0

/-- Python `min` on a list.  Python raises `ValueError` on an empty list;
the script only applies it to the non-empty literal `history`, so the
`[]` branch is unreachable here. -/
def pyMin : List Int → Int
  | [] => 0
  | x :: xs => xs.foldl min x

/-- Python `max` on a list (same remark as `pyMin` about `[]`). -/
def pyMax : List Int → Int
  | [] => 0
  | x :: xs => xs.foldl max x

/-- Python `//`, floor division on integers. -/
def pyFloorDiv (a b : Int) : Int := Int.fdiv a b

/-- `','.join(map(str, l))`. -/
def joinComma (l : List Int) : String := String.intercalate "," (l.map toString)

/-- `status = "ok" if v < 80 else "error"`. -/
def status (v : Int) : String := if v < 80 then "ok" else "error"

/-- `print(f"title: {{WIDGET_TITLE}}")`. -/
def titleLine : String := "title: \x7bWIDGET_TITLE\x7d"

/-- `print(f"refresh: {{REFRESH_INTERVAL}}")`. -/
def refreshLine : String := "refresh: \x7bREFRESH_INTERVAL\x7d"

/-- `print(f"action: Refresh:python3 {{OUTPUT_FILE}}")`. -/
def actionLine : String := "action: Refresh:python3 \x7bOUTPUT_FILE\x7d"

/-- The three `row:` lines of the compact (`not EXTENDED_MODE`) branch. -/
def compactRows : List String :=
  [ "row: [status:" ++ status current_value ++ "] Current: " ++ toString current_value,
    "row: [sparkline:" ++ joinComma history ++ "]",
    "row: Average: " ++ toString (pyFloorDiv (pySum history) (history.length : Int)) ]

/-- The twelve lines of the extended branch. -/
def extendedRows : List String :=
  [ "row: [bold]Current Status[/]",
    "row: [status:" ++ status current_value ++ "] Value: " ++ toString current_value,
    "row:",
    "row: [bold]History Graph[/]",
    "row: [graph:" ++ joinComma history ++ "]",
    "row:",
    "row: [bold]Statistics[/]",
    "[table:Metric|Value]",
    "[tablerow:Average|" ++ toString (pyFloorDiv (pySum history) (history.length : Int)) ++ "]",
    "[tablerow:Minimum|" ++ toString (pyMin history) ++ "]",
    "[tablerow:Maximum|" ++ toString (pyMax history) ++ "]",
    "[tablerow:Samples|" ++ toString history.length ++ "]" ]

/-- All lines of the try block except the final action line. -/
def front (argv : List String) : List String :=
  [titleLine, refreshLine] ++ (if EXTENDED_MODE argv then extendedRows else compactRows)

/-- The full sequence of print statements executed in the try block when
no exception occurs: header, branch rows, trailing action line. -/
def widgetLines (argv : List String) : List String :=
  front argv ++ [actionLine]

/-- The prefix of the line printed by the `except` handler. -/
def errPre : String := "row: [status:error] Error: "

/-- `print(f"row: [status:error] Error: {str(e)}")`. -/
def errorRow (msg : String) : String := errPre ++ msg

/-- Standard output of one run of `main`: either the full line sequence,
or — when the `k`-th print raises an exception with message `msg` — the
first `k` lines followed by the handler's single error row. -/
def mainOutput : List String → Option (Nat × String) → List String
  | argv, none => widgetLines argv
  | argv, some (k, msg) => (widgetLines argv).take k ++ [errorRow msg]

/-- The script never manipulates the exit status, and the handler
swallows every `Exception`, so the process exit code is always 0. -/
def exitCode : List String → Option (Nat × String) → Nat :=
  fun _ _ => 0

/-- `pre` is a literal prefix of `s` (comparison on the character data). -/
def strStartsWith (s pre : String) : Bool := pre.data.isPrefixOf s.data

/-- The closed set of directive tags of the output protocol. -/
def directiveTags : List String :=
  ["title:", "refresh:", "row:", "action:", "[table:", "[tablerow:"]

/-- A line is well-tagged when it starts with one of the directive tags. -/
def isTagged (l : String) : Bool := directiveTags.any (fun t => strStartsWith l t)

/-- `pat` occurs as a contiguous substring of the character list. -/
def occursWithin (pat : List Char) : List Char → Bool
  | [] => pat.isEmpty
  | c :: cs => pat.isPrefixOf (c :: cs) || occursWithin pat cs

section Helpers

lemma front_compact (argv : List String) (h : EXTENDED_MODE argv = false) :
    front argv = [titleLine, refreshLine] ++ compactRows := by
  simp [front, h]

lemma front_extended (argv : List String) (h : EXTENDED_MODE argv = true) :
    front argv = [titleLine, refreshLine] ++ extendedRows := by
  simp [front, h]

lemma strStartsWith_append (pre rest : String) :
    strStartsWith (pre ++ rest) pre = true := by
  unfold strStartsWith
  rw [String.data_append, List.isPrefixOf_iff_prefix]
  exact List.prefix_append _ _

lemma errorRow_row_tag (msg : String) : strStartsWith (errorRow msg) "row:" = true := by
  unfold strStartsWith errorRow errPre
  rw [String.data_append, List.isPrefixOf_iff_prefix]
  exact List.IsPrefix.trans (by decide) (List.prefix_append _ _)

lemma isTagged_errorRow (msg : String) : isTagged (errorRow msg) = true := by
  unfold isTagged
  exact List.any_eq_true.mpr ⟨"row:", by decide, errorRow_row_tag msg⟩

lemma countP_err_widgetLines (argv : List String) :
    (widgetLines argv).countP (fun l => strStartsWith l errPre) = 0 := by
  cases h : EXTENDED_MODE argv
  · rw [widgetLines, front_compact argv h]; decide
  · rw [widgetLines, front_extended argv h]; decide

lemma countP_err_take (argv : List String) (k : Nat) :
    ((widgetLines argv).take k).countP (fun l => strStartsWith l errPre) = 0 :=
  Nat.le_zero.mp
    (countP_err_widgetLines argv ▸ ((widgetLines argv).take_sublist k).countP_le _)

lemma widgetLines_tagged (argv : List String) :
    ∀ l ∈ widgetLines argv, isTagged l = true := by
  cases h : EXTENDED_MODE argv
  · rw [widgetLines, front_compact argv h]; decide
  · rw [widgetLines, front_extended argv h]; decide

lemma actionLine_not_mem_front (argv : List String) : actionLine ∉ front argv := by
  cases h : EXTENDED_MODE argv
  · rw [front_compact argv h]; decide
  · rw [front_extended argv h]; decide

lemma extendedMode_congr (a b : List String)
    (h : ("--extended" ∈ a) ↔ ("--extended" ∈ b)) :
    EXTENDED_MODE a = EXTENDED_MODE b := by
  simp only [EXTENDED_MODE, List.contains, List.elem_eq_mem, decide_eq_decide]
  exact h

lemma extendedMode_of_not_mem (argv : List String) (h : "--extended" ∉ argv) :
    EXTENDED_MODE argv = false := by
  simp [EXTENDED_MODE, List.elem_eq_mem, h]

lemma extendedMode_of_mem (argv : List String) (h : "--extended" ∈ argv) :
    EXTENDED_MODE argv = true := by
  simp [EXTENDED_MODE, List.elem_eq_mem, h]

lemma noErrStatus_widgetLines (argv : List String) :
    ∀ l ∈ widgetLines argv, occursWithin "[status:error]".data l.data = false := by
  cases h : EXTENDED_MODE argv
  · rw [widgetLines, front_compact argv h]; decide
  · rw [widgetLines, front_extended argv h]; decide

end Helpers

/-- C1: for the hard-coded series `[30,35,40,42,45,50,48,42]` and current
value 42, the status is "ok" (42 < 80), the average is 41 (332 // 8), the
minimum 30, the maximum 50 and the sample count 8, and those values appear
both in the compact average row and in the extended statistics table. -/
theorem c1_sample_statistics :
    status current_value = "ok" ∧ current_value < 80 ∧
    pyFloorDiv (pySum history) (history.length : Int) = 41 ∧
    pyMin history = 30 ∧ pyMax history = 50 ∧ history.length = 8 ∧
    compactRows[0]? = some "row: [status:ok] Current: 42" ∧
    compactRows[2]? = some "row: Average: 41" ∧
    extendedRows[1]? = some "row: [status:ok] Value: 42" ∧
    extendedRows[8]? = some "[tablerow:Average|41]" ∧
    extendedRows[9]? = some "[tablerow:Minimum|30]" ∧
    extendedRows[10]? = some "[tablerow:Maximum|50]" ∧
    extendedRows[11]? = some "[tablerow:Samples|8]" := by
  decide

/-- C2: when an exception with message `msg` interrupts the `k`-th print
of the rendering, the run emits the already-printed lines followed by one
single line of the form `row: [status:error] Error: <msg>` (exactly one
line of the output carries the error prefix), and the process still exits
with success. -/
theorem c2_exception_caught (argv : List String) (k : Nat) (msg : String) :
    mainOutput argv (some (k, msg)) =
      (widgetLines argv).take k ++ [errPre ++ msg] ∧
    (mainOutput argv (some (k, msg))).countP (fun l => strStartsWith l errPre) = 1 ∧
    exitCode argv (some (k, msg)) = 0 := by
  refine ⟨rfl, ?_, rfl⟩
  simp [mainOutput, List.countP_append, countP_err_take argv k,
        List.countP_cons, errorRow, strStartsWith_append]

/-- C3: for every argument list not containing `--extended`, the output
is exactly the title line, the refresh line, the three compact `row:`
lines (status-tagged current value, comma-joined sparkline, floor
average) and the trailing action line — six lines, three of them `row:`
lines, and nothing else. -/
theorem c3_compact_output (argv : List String) (h : "--extended" ∉ argv) :
    mainOutput argv none =
      [titleLine, refreshLine,
       "row: [status:ok] Current: 42",
       "row: [sparkline:30,35,40,42,45,50,48,42]",
       "row: Average: 41",
       actionLine] ∧
    (mainOutput argv none).countP (fun l => strStartsWith l "row:") = 3 := by
  have hout : mainOutput argv none = [titleLine, refreshLine] ++ compactRows ++ [actionLine] := by
    show widgetLines argv = _
    rw [widgetLines, front_compact argv (extendedMode_of_not_mem argv h)]
  rw [hout]
  exact ⟨by decide, by decide⟩

theorem c3_compact_output_witness :
    ("--extended" ∉ ["widget.py", "--verbose"]) ∧
    (mainOutput ["widget.py", "--verbose"] none =
      [titleLine, refreshLine,
       "row: [status:ok] Current: 42",
       "row: [sparkline:30,35,40,42,45,50,48,42]",
       "row: Average: 41",
       actionLine] ∧
    (mainOutput ["widget.py", "--verbose"] none).countP (fun l => strStartsWith l "row:") = 3) :=
  ⟨by decide, c3_compact_output ["widget.py", "--verbose"] (by decide)⟩

/-- C4: for every argument list containing `--extended`, the output is
the extended sequence, whose statistics section has exactly one
`[table:Metric|Value]` line followed immediately by exactly four
`[tablerow:...]` lines, Average, Minimum, Maximum, Samples in order. -/
theorem c4_extended_table (argv : List String) (h : "--extended" ∈ argv) :
    mainOutput argv none = [titleLine, refreshLine] ++ extendedRows ++ [actionLine] ∧
    (mainOutput argv none).countP (fun l => strStartsWith l "[table:") = 1 ∧
    (mainOutput argv none).countP (fun l => strStartsWith l "[tablerow:") = 4 ∧
    (mainOutput argv none).drop 9 =
      ["[table:Metric|Value]",
       "[tablerow:Average|41]",
       "[tablerow:Minimum|30]",
       "[tablerow:Maximum|50]",
       "[tablerow:Samples|8]",
       actionLine] := by
  have hout : mainOutput argv none = [titleLine, refreshLine] ++ extendedRows ++ [actionLine] := by
    show widgetLines argv = _
    rw [widgetLines, front_extended argv (extendedMode_of_mem argv h)]
  rw [hout]
  exact ⟨rfl, by decide, by decide, by decide⟩

theorem c4_extended_table_witness :
    ("--extended" ∈ ["widget.py", "--extended"]) ∧
    (mainOutput ["widget.py", "--extended"] none =
        [titleLine, refreshLine] ++ extendedRows ++ [actionLine] ∧
    (mainOutput ["widget.py", "--extended"] none).countP
        (fun l => strStartsWith l "[table:") = 1 ∧
    (mainOutput ["widget.py", "--extended"] none).countP
        (fun l => strStartsWith l "[tablerow:") = 4 ∧
    (mainOutput ["widget.py", "--extended"] none).drop 9 =
      ["[table:Metric|Value]",
       "[tablerow:Average|41]",
       "[tablerow:Minimum|30]",
       "[tablerow:Maximum|50]",
       "[tablerow:Samples|8]",
       actionLine]) :=
  ⟨by decide, c4_extended_table ["widget.py", "--extended"] (by decide)⟩

/-- C5: mode selection is a pure function of argument presence: the token
`--extended` at any position, with arbitrary surrounding arguments,
yields the extended line sequence; its absence yields the compact one;
and the mode bit is exactly list membership of the token. -/
theorem c5_mode_is_membership :
    (∀ pre post : List String,
        widgetLines (pre ++ "--extended" :: post) =
          [titleLine, refreshLine] ++ extendedRows ++ [actionLine]) ∧
    (∀ argv : List String, "--extended" ∉ argv →
        widgetLines argv = [titleLine, refreshLine] ++ compactRows ++ [actionLine]) ∧
    (∀ argv : List String, EXTENDED_MODE argv = true ↔ "--extended" ∈ argv) := by
  refine ⟨?_, ?_, ?_⟩
  · intro pre post
    rw [widgetLines,
        front_extended _ (extendedMode_of_mem _ (by simp))]
  · intro argv h
    rw [widgetLines, front_compact argv (extendedMode_of_not_mem argv h)]
  · intro argv
    simp [EXTENDED_MODE, List.elem_eq_mem]

theorem c5_mode_is_membership_witness :
    (widgetLines (["widget.py"] ++ "--extended" :: ["-v"]) =
      [titleLine, refreshLine] ++ extendedRows ++ [actionLine]) ∧
    ("--extended" ∉ ["widget.py"]) ∧
    (widgetLines ["widget.py"] = [titleLine, refreshLine] ++ compactRows ++ [actionLine]) ∧
    (EXTENDED_MODE ["widget.py"] = true ↔ "--extended" ∈ ["widget.py"]) :=
  ⟨c5_mode_is_membership.1 ["widget.py"] ["-v"], by decide,
   c5_mode_is_membership.2.1 ["widget.py"] (by decide),
   c5_mode_is_membership.2.2 ["widget.py"]⟩

/-- C6: every emitted line, in either mode and also on the error path,
starts with one of the closed set of directive tags `title:`,
`refresh:`, `row:`, `action:`, `[table:`, `[tablerow:`. -/
theorem c6_every_line_tagged (argv : List String) (fault : Option (Nat × String)) :
    ∀ l ∈ mainOutput argv fault, isTagged l = true := by
  intro l hl
  cases fault with
  | none => exact widgetLines_tagged argv l hl
  | some p =>
    obtain ⟨k, msg⟩ := p
    rcases List.mem_append.mp hl with h1 | h2
    · exact widgetLines_tagged argv l (List.take_subset k _ h1)
    · rw [List.mem_singleton.mp h2]
      exact isTagged_errorRow msg

theorem c6_every_line_tagged_witness :
    (titleLine ∈ mainOutput [] (some (1, "boom"))) ∧ isTagged titleLine = true :=
  ⟨by decide, c6_every_line_tagged [] (some (1, "boom")) titleLine (by decide)⟩

/-- C7: the renderer is deterministic and its output depends on nothing
but the presence of the `--extended` token: two argument lists agreeing
on membership of that token give byte-identical output in every run
(the same injected fault included). -/
theorem c7_deterministic (a b : List String)
    (h : ("--extended" ∈ a) ↔ ("--extended" ∈ b))
    (fault : Option (Nat × String)) :
    mainOutput a fault = mainOutput b fault := by
  have hw : widgetLines a = widgetLines b := by
    rw [widgetLines, widgetLines, front, front, extendedMode_congr a b h]
  cases fault with
  | none => exact hw
  | some p => obtain ⟨k, msg⟩ := p; simp [mainOutput, hw]

theorem c7_deterministic_witness :
    (("--extended" ∈ ["--extended"]) ↔ ("--extended" ∈ ["app", "--extended", "-v"])) ∧
    mainOutput ["--extended"] none = mainOutput ["app", "--extended", "-v"] none :=
  ⟨by decide, c7_deterministic ["--extended"] ["app", "--extended", "-v"] (by decide) none⟩

/-- C8: flag matching is exact list membership: arguments merely
containing `--extended` as a substring do not enable extended mode, an
argument equal to the exact token does, the program-name slot of the
argument list participates like any other element, and in general the
mode bit equals membership of the exact token. -/
theorem c8_exact_membership :
    EXTENDED_MODE ["widget.py", "--extended=1"] = false ∧
    EXTENDED_MODE ["widget.py", "--extended-mode"] = false ∧
    EXTENDED_MODE ["--extended", "foo"] = true ∧
    (∀ argv : List String, EXTENDED_MODE argv = true ↔ "--extended" ∈ argv) := by
  refine ⟨by decide, by decide, by decide, ?_⟩
  intro argv
  simp [EXTENDED_MODE, List.elem_eq_mem]

/-- C9: when an exception interrupts the `k`-th print (`k` below the
number of lines of a full run), the lines already printed stay on the
output as a prefix of the normal output, exactly one error row follows,
and the trailing action line is not emitted. -/
theorem c9_error_output_prefix (argv : List String) (k : Nat) (msg : String)
    (h : k < (widgetLines argv).length) :
    mainOutput argv (some (k, msg)) = (widgetLines argv).take k ++ [errorRow msg] ∧
    (widgetLines argv).take k <+: widgetLines argv ∧
    actionLine ∉ (widgetLines argv).take k ∧
    (mainOutput argv (some (k, msg))).countP (fun l => strStartsWith l errPre) = 1 := by
  refine ⟨rfl, List.take_prefix k _, ?_, ?_⟩
  · have hk : k ≤ (front argv).length := by
      have hlen : (widgetLines argv).length = (front argv).length + 1 := by
        simp [widgetLines]
      omega
    rw [widgetLines, List.take_append_of_le_length hk]
    intro hmem
    exact actionLine_not_mem_front argv (List.take_subset k _ hmem)
  · simp [mainOutput, List.countP_append, countP_err_take argv k,
          List.countP_cons, errorRow, strStartsWith_append]

theorem c9_error_output_prefix_witness :
    (2 < (widgetLines []).length) ∧
    (mainOutput [] (some (2, "boom")) = (widgetLines []).take 2 ++ [errorRow "boom"] ∧
     (widgetLines []).take 2 <+: widgetLines [] ∧
     actionLine ∉ (widgetLines []).take 2 ∧
     (mainOutput [] (some (2, "boom"))).countP (fun l => strStartsWith l errPre) = 1) :=
  ⟨by decide, c9_error_output_prefix [] 2 "boom" (by decide)⟩

/-- C10: since the current value is the constant 42 and 42 < 80, every
fault-free run prints the `[status:ok]` status row and no emitted line
ever contains `[status:error]` — the error branch of the status
classification is unreachable as shipped. -/
theorem c10_error_status_unreachable (argv : List String) :
    status current_value = "ok" ∧
    (strStartsWith ((mainOutput argv none).getD 2 "") "row: [status:ok]" = true ∨
     strStartsWith ((mainOutput argv none).getD 3 "") "row: [status:ok]" = true) ∧
    ∀ l ∈ mainOutput argv none, occursWithin "[status:error]".data l.data = false := by
  refine ⟨by decide, ?_, noErrStatus_widgetLines argv⟩
  cases h : EXTENDED_MODE argv
  · left
    show strStartsWith ((widgetLines argv).getD 2 "") _ = true
    rw [widgetLines, front_compact argv h]; decide
  · right
    show strStartsWith ((widgetLines argv).getD 3 "") _ = true
    rw [widgetLines, front_extended argv h]; decide

theorem c10_error_status_unreachable_witness :
    (titleLine ∈ mainOutput ["--extended"] none) ∧
    occursWithin "[status:error]".data titleLine.data = false :=
  ⟨by decide, (c10_error_status_unreachable ["--extended"]).2.2 titleLine (by decide)⟩
